import Mathlib

/-
  Verification development for the mini type checker
  (mini_type_checker.py): a two-pass engine consisting of a
  SemanticAnalyzer that populates three symbol tables from a parsed
  syntax tree, and a TypeChecker that re-walks the tree and emits
  diagnostics.

  The embedding below is a direct shallow translation of the Python
  source.  Python dictionaries become association lists with
  insertion-order preserving, overwrite-on-key insertion; printing
  becomes an explicit output list; Python exceptions
  (NotImplementedError, AttributeError, KeyError, IndexError,
  RuntimeError, NameError) become the inductive `Err`.  The mutable
  analyzer object is threaded explicitly through every operation of
  both passes, so that any mutation performed by a pass is visible in
  the returned state.
-/

namespace MiniTC

/-- Python exceptions raised by the two passes.  `notImplemented k`
carries the kind of the offending node, mirroring the source messages
of the form "Unsupported node type: ...". -/
inductive Err where
  | notImplemented (kind : String)
  | attributeError (attr : String)
  | keyError (key : String)
  | indexError
  | runtimeError (msg : String)
  | nameError (nm : String)
deriving DecidableEq, Repr

/-- Binary operator nodes.  The source resolves `cst.Add` to "+"; every
other operator class falls through `_resolve_node`-s final catch-all
and resolves to the universal type string. -/
inductive BinOpKind where
  | add
  | otherOp (kind : String)
deriving DecidableEq, Repr

/-- Expression nodes of the supported libcst subset.  `integer` carries
the literal value, `simpleString` the (unquoted) string contents,
`call` the callee name (a `cst.Name` func) with positional argument
expressions (the `cst.Arg` wrapper is elided), `name` a name
reference. -/
inductive Expr where
  | integer (n : Int)
  | simpleString (s : String)
  | call (func : String) (args : List Expr)
  | name (nm : String)
  | binaryOperation (op : BinOpKind) (left : Expr) (right : Expr)

/-- Small statements occurring inside a `cst.SimpleStatementLine`
body.  `annAssign` carries the target name, the optional type-name
written in the ascription, and the optional right-hand side;
`otherSmall` stands for any node class outside the handled set. -/
inductive SmallStmt where
  | assign (targets : List String) (value : Expr)
  | annAssign (target : String) (annot : Option String) (value : Option Expr)
  | ret (value : Option Expr)
  | expr (value : Expr)
  | importFrom
  | otherSmall (kind : String)

/-- Top-level (and function-body) statements: a simple statement line
with its body list, a function definition with named parameters
carrying optional type-name ascriptions, an optional declared return
type-name, and a body; `otherStmt` is any other node class. -/
inductive Stmt where
  | simpleStatementLine (body : List SmallStmt)
  | functionDef (fname : String) (params : List (String × Option String))
      (returns : Option String) (body : List Stmt)
  | otherStmt (kind : String)

/-- Values stored in GENERICS_TYPE_INFO.  The source stores the result
of `eval` of the first TypeVar argument, which is a Python string for
a string literal and a Python int for an integer literal. -/
inductive GVal where
  | vstr (s : String)
  | vint (n : Int)
deriving DecidableEq, Repr

/-- FUNCTION_TYPE_INFO entry: ordered (parameter name, declared type)
pairs and the declared return type. -/
structure FuncSig where
  args : List (String × String)
  ret : String
deriving DecidableEq, Repr

/-- Insertion-ordered dictionary lookup (Python `d[k]` / `k in d`). -/
def dictFind? {α : Type} (k : String) : List (String × α) → Option α
  | [] => none
  | (k', v) :: rest => if k' = k then some v else dictFind? k rest

/-- Python `d[k] = v`: overwrite in place when the key exists,
otherwise append, preserving insertion order. -/
def dictInsert {α : Type} (k : String) (v : α) : List (String × α) → List (String × α)
  | [] => [(k, v)]
  | (k', v') :: rest =>
      if k' = k then (k, v) :: rest else (k', v') :: dictInsert k v rest

/-- Python `k in d` (key membership). -/
def dictContains {α : Type} (k : String) (d : List (String × α)) : Bool :=
  (dictFind? k d).isSome

/-- Python `t in GENERICS_TYPE_INFO.values()`: `t` (a string) equals
one of the stored values; integer values never equal a string. -/
def genericsHasValue (t : String) : List (String × GVal) → Bool
  | [] => false
  | (_, GVal.vstr s) :: rest => s = t || genericsHasValue t rest
  | (_, GVal.vint _) :: rest => genericsHasValue t rest

def ANY_TYPE : String := "any"
def INT_TYPE : String := "int"
def STR_TYPE : String := "str"

def arg_type_error_tmpl (pos : Nat) (func actual declared : String) : String :=
  "Argument " ++ toString pos ++ " to \"" ++ func ++ "\" has incompatible type \"" ++
    actual ++ "\"; expected \"" ++ declared ++ "\"  [arg-type]"

def assignment_error_tmpl (actual declared : String) : String :=
  "Incompatible types in assignment (expression has type \"" ++ actual ++
    "\", variable has type \"" ++ declared ++ "\") [assignment]"

def return_value_error_tmpl (actual declared : String) : String :=
  "Incompatible return value type (got \"" ++ actual ++ "\", expected \"" ++
    declared ++ "\")  [return-value]"

def operand_error_tmpl (op left right : String) : String :=
  "Unsupported operand types for " ++ op ++ " (\"" ++ left ++ "\" and \"" ++
    right ++ "\")  [operator]"

/-- The three symbol tables plus the `done` flag of the analyzer. -/
structure SemanticAnalyzer where
  GENERICS_TYPE_INFO : List (String × GVal)
  FUNCTION_TYPE_INFO : List (String × FuncSig)
  VARIABLE_TYPE_INFO : List (String × String)
  done : Bool
deriving DecidableEq, Repr

/-- `SemanticAnalyzer.__init__`: empty tables, done = False. -/
def SemanticAnalyzer.init : SemanticAnalyzer :=
  { GENERICS_TYPE_INFO := [], FUNCTION_TYPE_INFO := [],
    VARIABLE_TYPE_INFO := [], done := false }

/-- `_analyze_annotation`: the ascribed type name, defaulting to the
universal type when the node carries no ascription. -/
def analyze_annot : Option String → String
  | some v => v
  | none => ANY_TYPE

/-- Python `eval` applied to the textual `.value` of a TypeVar first
argument: a string literal evaluates to its contents, an integer
literal to the integer.  A name reference evaluates in the module
globals, which this model does not carry, so it is modelled as the
NameError that an unbound name raises; a call or a binary operation
has no `.value` attribute at all, raising AttributeError before eval
runs. -/
def evalTypeVarArg : Expr → Except Err GVal
  | Expr.simpleString s => Except.ok (GVal.vstr s)
  | Expr.integer n => Except.ok (GVal.vint n)
  | Expr.name nm => Except.error (Err.nameError nm)
  | Expr.call _ _ => Except.error (Err.attributeError "value")
  | Expr.binaryOperation _ _ _ => Except.error (Err.attributeError "value")

/-- `_analyze_simple_statement_line`: dispatch on `node.body[0]`.  A
plain Assign reads `body.value.func.value` first, so a non-call
right-hand side raises AttributeError; a call named TypeVar registers
the evaluated first argument in GENERICS_TYPE_INFO keyed by
`targets[0]`; any other call is skipped.  An AnnAssign records the
ascribed type in VARIABLE_TYPE_INFO.  Return, Expr and ImportFrom are
skipped; any other node class raises NotImplementedError. -/
def analyze_simple_statement_line (a : SemanticAnalyzer) :
    List SmallStmt → Except Err SemanticAnalyzer
  | [] => Except.error Err.indexError
  | body :: _ =>
    match body with
    | SmallStmt.assign targets value =>
        match value with
        | Expr.call f cargs =>
            if f = "TypeVar" then
              match targets with
              | [] => Except.error Err.indexError
              | t :: _ =>
                match cargs with
                | [] => Except.error Err.indexError
                | arg0 :: _ =>
                  match evalTypeVarArg arg0 with
                  | Except.error e => Except.error e
                  | Except.ok v =>
                      Except.ok { a with
                        GENERICS_TYPE_INFO := dictInsert t v a.GENERICS_TYPE_INFO }
            else Except.ok a
        | _ => Except.error (Err.attributeError "func")
    | SmallStmt.annAssign target annot _ =>
        Except.ok { a with
          VARIABLE_TYPE_INFO :=
            dictInsert target (analyze_annot annot) a.VARIABLE_TYPE_INFO }
    | SmallStmt.ret _ => Except.ok a
    | SmallStmt.expr _ => Except.ok a
    | SmallStmt.importFrom => Except.ok a
    | SmallStmt.otherSmall k => Except.error (Err.notImplemented k)

/-- The body loop of `_analyze_function_def`: every statement inside a
function must be a SimpleStatementLine, analyzed by the same rules;
anything else raises NotImplementedError. -/
def analyze_function_def_body (a : SemanticAnalyzer) :
    List Stmt → Except Err SemanticAnalyzer
  | [] => Except.ok a
  | Stmt.simpleStatementLine b :: rest =>
      match analyze_simple_statement_line a b with
      | Except.error e => Except.error e
      | Except.ok a' => analyze_function_def_body a' rest
  | Stmt.functionDef _ _ _ _ :: _ => Except.error (Err.notImplemented "FunctionDef")
  | Stmt.otherStmt k :: _ => Except.error (Err.notImplemented k)

/-- `_analyze_function_def`: analyze the body, then register the
function signature built from the parameter and return ascriptions
(defaulting to the universal type when absent). -/
def analyze_function_def (a : SemanticAnalyzer) (fname : String)
    (params : List (String × Option String)) (returns : Option String)
    (body : List Stmt) : Except Err SemanticAnalyzer :=
  match analyze_function_def_body a body with
  | Except.error e => Except.error e
  | Except.ok a' =>
      Except.ok { a' with
        FUNCTION_TYPE_INFO :=
          dictInsert fname
            { args := params.map (fun p => (p.1, analyze_annot p.2)),
              ret := analyze_annot returns }
            a'.FUNCTION_TYPE_INFO }

/-- The top-level loop of `analyze`. -/
def analyzeList (a : SemanticAnalyzer) : List Stmt → Except Err SemanticAnalyzer
  | [] => Except.ok a
  | Stmt.simpleStatementLine b :: rest =>
      match analyze_simple_statement_line a b with
      | Except.error e => Except.error e
      | Except.ok a' => analyzeList a' rest
  | Stmt.functionDef f ps r body :: rest =>
      match analyze_function_def a f ps r body with
      | Except.error e => Except.error e
      | Except.ok a' => analyzeList a' rest
  | Stmt.otherStmt k :: _ => Except.error (Err.notImplemented k)

/-- `SemanticAnalyzer.analyze`: scan all top-level statements, then
set the `done` flag. -/
def analyze (a : SemanticAnalyzer) (root : List Stmt) : Except Err SemanticAnalyzer :=
  match analyzeList a root with
  | Except.error e => Except.error e
  | Except.ok a' => Except.ok { a' with done := true }

/-- The checker object: a read-only reference to the analyzer. -/
structure TypeChecker where
  ANALYZER : SemanticAnalyzer
deriving DecidableEq, Repr

/-- `TypeChecker.__init__`: raises RuntimeError unless the analyzer
has reached the done state. -/
def TypeChecker.init (analyzer : SemanticAnalyzer) : Except Err TypeChecker :=
  if !analyzer.done then
    Except.error (Err.runtimeError "SemanticAnalyzer is not done yet.")
  else Except.ok { ANALYZER := analyzer }

/-- Result of a checker operation: the analyzer state it finished
with, the diagnostic lines printed (in order) before it returned or
raised, and the exception it raised, if any. -/
structure CRes where
  analyzer : SemanticAnalyzer
  output : List String
  error : Option Err

/-- Result of `_resolve_node`: the analyzer state, the diagnostics
printed while resolving (a binary operation may print), and the
resolved type string.  `_resolve_node` never raises: its final branch
returns the universal type for every unhandled node. -/
structure RRes where
  analyzer : SemanticAnalyzer
  output : List String
  ty : String

/-- `_resolve_node` applied to an operator node: `cst.Add` resolves to
"+", every other operator class falls through to the catch-all and
resolves to the universal type string. -/
def resolve_op : BinOpKind → String
  | BinOpKind.add => "+"
  | BinOpKind.otherOp _ => ANY_TYPE

/-- `_resolve_node` on expressions, with the body of
`_check_and_resolve_binary_operation` inlined at the BinaryOperation
case: the operator, left operand and right operand are resolved in
that order; if either operand type is the universal type the whole
expression resolves to it with no diagnostic; otherwise differing
operand types print one operator diagnostic; the resolved type is the
left type. -/
def resolve_node (a : SemanticAnalyzer) : Expr → RRes
  | Expr.integer _ => { analyzer := a, output := [], ty := INT_TYPE }
  | Expr.simpleString _ => { analyzer := a, output := [], ty := STR_TYPE }
  | Expr.call f _ =>
      match dictFind? f a.FUNCTION_TYPE_INFO with
      | none => { analyzer := a, output := [], ty := ANY_TYPE }
      | some sig => { analyzer := a, output := [], ty := sig.ret }
  | Expr.name _ => { analyzer := a, output := [], ty := ANY_TYPE }
  | Expr.binaryOperation op l r =>
      let operator := resolve_op op
      let lres := resolve_node a l
      let rres := resolve_node lres.analyzer r
      if lres.ty = ANY_TYPE || rres.ty = ANY_TYPE then
        { analyzer := rres.analyzer, output := lres.output ++ rres.output,
          ty := ANY_TYPE }
      else if lres.ty ≠ rres.ty then
        { analyzer := rres.analyzer,
          output := lres.output ++ rres.output ++
            [operand_error_tmpl operator lres.ty rres.ty],
          ty := lres.ty }
      else
        { analyzer := rres.analyzer, output := lres.output ++ rres.output,
          ty := lres.ty }

/-- `_check_and_resolve_binary_operation` as a named entry point. -/
def check_and_resolve_binary_operation (a : SemanticAnalyzer)
    (op : BinOpKind) (l r : Expr) : RRes :=
  resolve_node a (Expr.binaryOperation op l r)

/-- `_resolve_node` on a Return node: it recurses into `node.value`;
a bare `return` has value None, which falls through the catch-all and
resolves to the universal type. -/
def resolve_return_value (a : SemanticAnalyzer) : Option Expr → RRes
  | none => { analyzer := a, output := [], ty := ANY_TYPE }
  | some e => resolve_node a e

/-- The argument loop of `_check_args`.  `sigArgs` is
FUNCTION_TYPE_INFO[func]["args"]; indexing it past its length raises
IndexError.  A declared type equal to the universal type, or occurring
among the GENERICS_TYPE_INFO values, skips the argument.  Otherwise a
string literal argument is compared against the string type and an
integer literal against the int type, printing an argument diagnostic
with 1-based position on mismatch; any other argument expression
raises NotImplementedError. -/
def check_args_loop (a : SemanticAnalyzer) (fname : String)
    (sigArgs : List (String × String)) (i : Nat) : List Expr → CRes
  | [] => { analyzer := a, output := [], error := none }
  | arg :: rest =>
      match sigArgs[i]? with
      | none => { analyzer := a, output := [], error := some Err.indexError }
      | some pa =>
        let annotated := pa.2
        if annotated = ANY_TYPE then
          check_args_loop a fname sigArgs (i + 1) rest
        else if genericsHasValue annotated a.GENERICS_TYPE_INFO then
          check_args_loop a fname sigArgs (i + 1) rest
        else
          match arg with
          | Expr.simpleString _ =>
              let d := if annotated ≠ STR_TYPE then
                  [arg_type_error_tmpl (i + 1) fname STR_TYPE annotated]
                else []
              let r := check_args_loop a fname sigArgs (i + 1) rest
              { analyzer := r.analyzer, output := d ++ r.output, error := r.error }
          | Expr.integer _ =>
              let d := if annotated ≠ INT_TYPE then
                  [arg_type_error_tmpl (i + 1) fname INT_TYPE annotated]
                else []
              let r := check_args_loop a fname sigArgs (i + 1) rest
              { analyzer := r.analyzer, output := d ++ r.output, error := r.error }
          | _ => { analyzer := a, output := [], error := some (Err.notImplemented "arg") }

/-- `_check_args`: an unknown callee is skipped (no signature, treated
as always compatible); otherwise run the argument loop. -/
def check_args (a : SemanticAnalyzer) (fname : String) (callArgs : List Expr) : CRes :=
  match dictFind? fname a.FUNCTION_TYPE_INFO with
  | none => { analyzer := a, output := [], error := none }
  | some sig => check_args_loop a fname sig.args 0 callArgs

/-- The node handed to `_check_call` (and so to `_check_args` and
`_check_return`) is always either an AnnAssign whose value is a call,
or an Expr statement whose value is a call; both carry the callee name
and the positional arguments, and only the AnnAssign carries a
`target` attribute.  The Return branch of `_check_return` is dead code
for these two callers and is therefore not represented. -/
inductive CallCtx where
  | annAssignCtx (target : String) (fname : String) (args : List Expr)
  | exprCtx (fname : String) (args : List Expr)

def CallCtx.fname : CallCtx → String
  | CallCtx.annAssignCtx _ f _ => f
  | CallCtx.exprCtx f _ => f

def CallCtx.args : CallCtx → List Expr
  | CallCtx.annAssignCtx _ _ as => as
  | CallCtx.exprCtx _ as => as

/-- The generic scan loop of `_check_return`: walk the declared
parameters; whenever a parameter ascription equals the declared
(generic) return type, look at the call argument in the same position
(IndexError when the call has fewer arguments); an integer literal
there sets the actual type to the int type, anything else leaves the
accumulator unchanged. -/
def generic_scan (annotated_return : String) (typed_args : List Expr)
    (acc : String) (i : Nat) : List (String × String) → Except Err String
  | [] => Except.ok acc
  | pa :: rest =>
      if pa.2 = annotated_return then
        match typed_args[i]? with
        | none => Except.error Err.indexError
        | some (Expr.integer _) =>
            generic_scan annotated_return typed_args INT_TYPE (i + 1) rest
        | some _ =>
            generic_scan annotated_return typed_args acc (i + 1) rest
      else generic_scan annotated_return typed_args acc (i + 1) rest

/-- `_check_return`.  Unknown callee: skip.  Declared return type
registered as a GENERICS_TYPE_INFO key: run the generic scan, then
read `node.target` — an AttributeError for the Expr-statement context
— and compare the resolved actual type against the target variable
declared type, printing an assignment diagnostic on mismatch.
Otherwise, a declared return type differing from the universal type
compares the target variable declared type against it for an
AnnAssign (printing the assignment diagnostic with the declared
return as the expression type), and raises NotImplementedError for
the Expr-statement context, which is neither an AnnAssign nor a
Return. -/
def check_return (a : SemanticAnalyzer) (ctx : CallCtx) : CRes :=
  match dictFind? ctx.fname a.FUNCTION_TYPE_INFO with
  | none => { analyzer := a, output := [], error := none }
  | some sig =>
    if dictContains sig.ret a.GENERICS_TYPE_INFO then
      match generic_scan sig.ret ctx.args ANY_TYPE 0 sig.args with
      | Except.error e => { analyzer := a, output := [], error := some e }
      | Except.ok actual_type =>
        match ctx with
        | CallCtx.exprCtx _ _ =>
            { analyzer := a, output := [], error := some (Err.attributeError "target") }
        | CallCtx.annAssignCtx target _ _ =>
          match dictFind? target a.VARIABLE_TYPE_INFO with
          | none => { analyzer := a, output := [], error := some (Err.keyError target) }
          | some declared =>
              if declared ≠ actual_type then
                { analyzer := a,
                  output := [assignment_error_tmpl actual_type declared],
                  error := none }
              else { analyzer := a, output := [], error := none }
    else
      if sig.ret ≠ ANY_TYPE then
        match ctx with
        | CallCtx.annAssignCtx target _ _ =>
          match dictFind? target a.VARIABLE_TYPE_INFO with
          | none => { analyzer := a, output := [], error := some (Err.keyError target) }
          | some actual_type =>
              if actual_type ≠ sig.ret then
                { analyzer := a,
                  output := [assignment_error_tmpl sig.ret actual_type],
                  error := none }
              else { analyzer := a, output := [], error := none }
        | CallCtx.exprCtx _ _ =>
            { analyzer := a, output := [], error := some (Err.notImplemented "Expr") }
      else { analyzer := a, output := [], error := none }

/-- `_check_call`: argument check, then return check. -/
def check_call (a : SemanticAnalyzer) (ctx : CallCtx) : CRes :=
  let r := check_args a ctx.fname ctx.args
  match r.error with
  | some _ => r
  | none =>
      let r2 := check_return r.analyzer ctx
      { analyzer := r2.analyzer, output := r.output ++ r2.output, error := r2.error }

/-- `_check_assignment` on an AnnAssign: an integer-literal value is
compared against the int type via the target entry of
VARIABLE_TYPE_INFO (KeyError when absent); a call value delegates to
the call check in the AnnAssign context; any other value is left
unchecked. -/
def check_assignment (a : SemanticAnalyzer) (target : String)
    (value : Option Expr) : CRes :=
  match value with
  | some (Expr.integer _) =>
      match dictFind? target a.VARIABLE_TYPE_INFO with
      | none => { analyzer := a, output := [], error := some (Err.keyError target) }
      | some t =>
          if t ≠ INT_TYPE then
            { analyzer := a, output := [assignment_error_tmpl INT_TYPE t],
              error := none }
          else { analyzer := a, output := [], error := none }
  | some (Expr.call f cargs) =>
      check_call a (CallCtx.annAssignCtx target f cargs)
  | _ => { analyzer := a, output := [], error := none }

/-- `_check_simple_statement_line`: dispatch on `node.body[0]`; only
an AnnAssign and an Expr statement whose value is a call are checked,
every other small statement is silently skipped. -/
def check_simple_statement_line (a : SemanticAnalyzer) : List SmallStmt → CRes
  | [] => { analyzer := a, output := [], error := some Err.indexError }
  | b :: _ =>
    match b with
    | SmallStmt.annAssign target _ value => check_assignment a target value
    | SmallStmt.expr (Expr.call f cargs) => check_call a (CallCtx.exprCtx f cargs)
    | _ => { analyzer := a, output := [], error := none }

/-- The scan of `_check_function_return` that finds the first
SimpleStatementLine in the body whose first small statement is a
Return, and resolves it; a line with an empty body raises IndexError;
no Return found leaves the actual type at the universal default. -/
def find_return_resolve (a : SemanticAnalyzer) : List Stmt → Except Err RRes
  | [] => Except.ok { analyzer := a, output := [], ty := ANY_TYPE }
  | Stmt.simpleStatementLine [] :: _ => Except.error Err.indexError
  | Stmt.simpleStatementLine (SmallStmt.ret v :: _) :: _ =>
      Except.ok (resolve_return_value a v)
  | _ :: rest => find_return_resolve a rest

/-- `_check_function_return`: skip when the function has no recorded
signature; otherwise resolve the first Return of the body; when the
declared and the resolved actual return types both differ from the
universal type and from each other, print one return-value
diagnostic. -/
def check_function_return (a : SemanticAnalyzer) (fname : String)
    (body : List Stmt) : CRes :=
  match dictFind? fname a.FUNCTION_TYPE_INFO with
  | none => { analyzer := a, output := [], error := none }
  | some sig =>
    match find_return_resolve a body with
    | Except.error e => { analyzer := a, output := [], error := some e }
    | Except.ok r =>
        if sig.ret = ANY_TYPE || r.ty = ANY_TYPE then
          { analyzer := r.analyzer, output := r.output, error := none }
        else if sig.ret ≠ r.ty then
          { analyzer := r.analyzer,
            output := r.output ++ [return_value_error_tmpl r.ty sig.ret],
            error := none }
        else { analyzer := r.analyzer, output := r.output, error := none }

/-- `TypeChecker.check`: the top-level statement loop.  A
SimpleStatementLine is checked by `_check_simple_statement_line`; a
FunctionDef is checked by `_check_function_def`, that is, its body is
checked recursively by this same loop and then its return statement is
validated; any other node class raises NotImplementedError.
Diagnostics printed before an exception is raised are kept in the
output. -/
def check (a : SemanticAnalyzer) : List Stmt → CRes
  | [] => { analyzer := a, output := [], error := none }
  | Stmt.simpleStatementLine b :: rest =>
      let r := check_simple_statement_line a b
      match r.error with
      | some _ => r
      | none =>
          let r2 := check r.analyzer rest
          { analyzer := r2.analyzer, output := r.output ++ r2.output,
            error := r2.error }
  | Stmt.functionDef f _ _ body :: rest =>
      let rb := check a body
      let rfd :=
        match rb.error with
        | some _ => rb
        | none =>
            let rr := check_function_return rb.analyzer f body
            { analyzer := rr.analyzer, output := rb.output ++ rr.output,
              error := rr.error }
      match rfd.error with
      | some _ => rfd
      | none =>
          let r2 := check rfd.analyzer rest
          { analyzer := r2.analyzer, output := rfd.output ++ r2.output,
            error := r2.error }
  | Stmt.otherStmt k :: _ =>
      { analyzer := a, output := [], error := some (Err.notImplemented k) }

/-
  Read-only discipline of the checker pass: every checker operation
  returns the analyzer state it was given.  These lemmas make the
  absence of hidden mutation during checking a proved fact rather
  than a modelling assumption.
-/

theorem resolve_node_analyzer : ∀ (a : SemanticAnalyzer) (e : Expr),
    (resolve_node a e).analyzer = a
  | _, Expr.integer _ => rfl
  | a, Expr.simpleString _ => rfl
  | a, Expr.call f _ => by
      cases h : dictFind? f a.FUNCTION_TYPE_INFO <;> simp [resolve_node, h]
  | _, Expr.name _ => rfl
  | a, Expr.binaryOperation op l r => by
      have hl := resolve_node_analyzer a l
      have hr := resolve_node_analyzer (resolve_node a l).analyzer r
      have hb : (resolve_node a (Expr.binaryOperation op l r)).analyzer =
          (resolve_node (resolve_node a l).analyzer r).analyzer := by
        simp only [resolve_node]
        split
        · rfl
        · split <;> rfl
      rw [hb, hr, hl]

theorem resolve_return_value_analyzer (a : SemanticAnalyzer) (v : Option Expr) :
    (resolve_return_value a v).analyzer = a := by
  cases v <;> simp [resolve_return_value, resolve_node_analyzer]

theorem find_return_resolve_analyzer (a : SemanticAnalyzer) :
    ∀ (body : List Stmt) (r : RRes),
      find_return_resolve a body = Except.ok r → r.analyzer = a := by
  intro body
  induction body with
  | nil =>
      intro r h
      simp only [find_return_resolve, Except.ok.injEq] at h
      rw [← h]
  | cons s rest ih =>
      intro r h
      match s with
      | Stmt.simpleStatementLine [] =>
          simp [find_return_resolve] at h
      | Stmt.simpleStatementLine (SmallStmt.ret v :: _) =>
          simp only [find_return_resolve, Except.ok.injEq] at h
          rw [← h]
          exact resolve_return_value_analyzer a v
      | Stmt.simpleStatementLine (SmallStmt.assign _ _ :: _)
      | Stmt.simpleStatementLine (SmallStmt.annAssign _ _ _ :: _)
      | Stmt.simpleStatementLine (SmallStmt.expr _ :: _)
      | Stmt.simpleStatementLine (SmallStmt.importFrom :: _)
      | Stmt.simpleStatementLine (SmallStmt.otherSmall _ :: _)
      | Stmt.functionDef _ _ _ _
      | Stmt.otherStmt _ =>
          exact ih r h

theorem check_args_loop_analyzer (a : SemanticAnalyzer) (fname : String)
    (sigArgs : List (String × String)) :
    ∀ (cargs : List Expr) (i : Nat),
      (check_args_loop a fname sigArgs i cargs).analyzer = a := by
  intro cargs
  induction cargs with
  | nil => intro i; rfl
  | cons arg rest ih =>
      intro i
      simp only [check_args_loop]
      cases h : sigArgs[i]? with
      | none => simp [h]
      | some pa =>
          by_cases h1 : pa.2 = ANY_TYPE
          · simp [h, h1, ih]
          · by_cases h2 : genericsHasValue pa.2 a.GENERICS_TYPE_INFO
            · simp [h, h1, h2, ih]
            · cases arg <;> simp [h, h1, h2, ih]

theorem check_args_analyzer (a : SemanticAnalyzer) (fname : String)
    (cargs : List Expr) : (check_args a fname cargs).analyzer = a := by
  simp only [check_args]
  cases h : dictFind? fname a.FUNCTION_TYPE_INFO with
  | none => rfl
  | some sig => exact check_args_loop_analyzer a fname sig.args cargs 0

theorem check_return_analyzer (a : SemanticAnalyzer) (ctx : CallCtx) :
    (check_return a ctx).analyzer = a := by
  unfold check_return
  (repeat' split) <;> rfl

theorem check_call_analyzer (a : SemanticAnalyzer) (ctx : CallCtx) :
    (check_call a ctx).analyzer = a := by
  simp only [check_call]
  split
  · exact check_args_analyzer a ctx.fname ctx.args
  · simp only []
    rw [check_return_analyzer, check_args_analyzer]

theorem check_assignment_analyzer (a : SemanticAnalyzer) (target : String)
    (value : Option Expr) : (check_assignment a target value).analyzer = a := by
  unfold check_assignment
  split
  · split <;> first | rfl | (split <;> rfl)
  · exact check_call_analyzer a _
  · rfl

theorem check_simple_statement_line_analyzer (a : SemanticAnalyzer)
    (b : List SmallStmt) : (check_simple_statement_line a b).analyzer = a := by
  unfold check_simple_statement_line
  split
  · rfl
  · split
    · exact check_assignment_analyzer a _ _
    · exact check_call_analyzer a _
    · rfl

theorem check_function_return_analyzer (a : SemanticAnalyzer) (fname : String)
    (body : List Stmt) : (check_function_return a fname body).analyzer = a := by
  unfold check_function_return
  split
  · rfl
  · split
    · rfl
    · rename_i sig r h
      have := find_return_resolve_analyzer a body r h
      (repeat' split) <;> simpa using this

theorem check_analyzer_aux : ∀ (n : Nat) (l : List Stmt), sizeOf l ≤ n →
    ∀ a : SemanticAnalyzer, (check a l).analyzer = a := by
  intro n
  induction n with
  | zero =>
      intro l h a
      cases l with
      | nil => simp [check]
      | cons s rest => simp only [List.cons.sizeOf_spec] at h; omega
  | succ n ih =>
      intro l h a
      cases l with
      | nil => simp [check]
      | cons s rest =>
        have hr : sizeOf rest ≤ n := by
          simp only [List.cons.sizeOf_spec] at h
          have : 0 < sizeOf s := by cases s <;> simp
          omega
        cases s with
        | simpleStatementLine b =>
            simp only [check]
            cases he : (check_simple_statement_line a b).error with
            | some e => simp [he, check_simple_statement_line_analyzer]
            | none => simp [he, ih rest hr, check_simple_statement_line_analyzer]
        | functionDef f ps rt body =>
            have hb : sizeOf body ≤ n := by
              simp only [List.cons.sizeOf_spec, Stmt.functionDef.sizeOf_spec] at h
              omega
            have hA := ih body hb a
            simp only [check, hA]
            cases hbe : (check a body).error with
            | some e => simp [hbe, hA]
            | none =>
                cases hfe : (check_function_return a f body).error with
                | some e2 => simp [hbe, hfe, hA, check_function_return_analyzer]
                | none =>
                    simp [hbe, hfe, hA, check_function_return_analyzer, ih rest hr]
        | otherStmt k => simp [check]

theorem check_analyzer (a : SemanticAnalyzer) (l : List Stmt) :
    (check a l).analyzer = a :=
  check_analyzer_aux (sizeOf l) l (Nat.le_refl _) a

/-
  Auxiliary facts about the symbol tables and some concrete fixtures.
-/

theorem genericsHasValue_of_find (g : List (String × GVal)) (k t : String)
    (h : dictFind? k g = some (GVal.vstr t)) : genericsHasValue t g = true := by
  induction g with
  | nil => simp [dictFind?] at h
  | cons p rest ih =>
      obtain ⟨k', v⟩ := p
      by_cases hk : k' = k
      · rw [dictFind?, if_pos hk] at h
        injection h with h
        subst h
        simp [genericsHasValue]
      · rw [dictFind?, if_neg hk] at h
        have := ih h
        cases v <;> simp [genericsHasValue, this]

/-- An analyzer with empty tables that has reached the done state. -/
def aEmptyDone : SemanticAnalyzer :=
  { GENERICS_TYPE_INFO := [], FUNCTION_TYPE_INFO := [],
    VARIABLE_TYPE_INFO := [], done := true }

/-- The generics test case of the repository (generics_typed_ng.py):
two imports, a TypeVar declaration, the identity-shaped generic
function, an int-annotated assignment, and the mismatched
str-annotated assignment of a generic call. -/
def generics_typed_ng : List Stmt :=
  [ Stmt.simpleStatementLine [SmallStmt.importFrom],
    Stmt.simpleStatementLine [SmallStmt.importFrom],
    Stmt.simpleStatementLine
      [SmallStmt.assign ["T"] (Expr.call "TypeVar" [Expr.simpleString "T"])],
    Stmt.functionDef "f" [("x", some "T")] (some "T")
      [Stmt.simpleStatementLine
        [SmallStmt.ret (some (Expr.call "deepcopy" [Expr.name "x"]))]],
    Stmt.simpleStatementLine
      [SmallStmt.annAssign "x" (some "int") (some (Expr.integer 1))],
    Stmt.simpleStatementLine
      [SmallStmt.annAssign "copy_x" (some "str")
        (some (Expr.call "f" [Expr.integer 1]))] ]

/-- The analyzer state after analyzing `generics_typed_ng`. -/
def aGen : SemanticAnalyzer :=
  { GENERICS_TYPE_INFO := [("T", GVal.vstr "T")],
    FUNCTION_TYPE_INFO := [("f", { args := [("x", "T")], ret := "T" })],
    VARIABLE_TYPE_INFO := [("x", "int"), ("copy_x", "str")], done := true }

/-- The program `def g(x: int) -> int: return x` followed by the bare
expression-statement call `g("a")`. -/
def prog_g_call : List Stmt :=
  [ Stmt.functionDef "g" [("x", some "int")] (some "int")
      [Stmt.simpleStatementLine [SmallStmt.ret (some (Expr.name "x"))]],
    Stmt.simpleStatementLine
      [SmallStmt.expr (Expr.call "g" [Expr.simpleString "a"])] ]

/-- The analyzer state after analyzing `prog_g_call`. -/
def aGCall : SemanticAnalyzer :=
  { GENERICS_TYPE_INFO := [],
    FUNCTION_TYPE_INFO := [("g", { args := [("x", "int")], ret := "int" })],
    VARIABLE_TYPE_INFO := [], done := true }

/-- Small statements that `_check_simple_statement_line` dispatches on
(an AnnAssign, or an Expr statement whose value is a call); everything
else falls off the end of its if/elif chain. -/
def handled_small_stmt : SmallStmt → Bool
  | SmallStmt.annAssign _ _ _ => true
  | SmallStmt.expr (Expr.call _ _) => true
  | _ => false

/-- Whether an expression node is a Call (the only node class carrying
a `func` attribute among the supported ones). -/
def is_call_value : Expr → Bool
  | Expr.call _ _ => true
  | _ => false

/-
  Claim theorems.
-/

/-- C1: with a generic parameter T registered (key and value both T),
a function signature with one parameter ascribed T and declared return
type T, and the target variable declared "str", checking the annotated
assignment of a call with one integer-literal argument resolves the
actual type to "int" and emits exactly the one assignment diagnostic
with actual "int" and declared "str", raising nothing. -/
theorem generic_call_assignment_mismatch (a : SemanticAnalyzer)
    (T x v fname : String) (n : Int)
    (hg : dictFind? T a.GENERICS_TYPE_INFO = some (GVal.vstr T))
    (hf : dictFind? fname a.FUNCTION_TYPE_INFO =
      some { args := [(x, T)], ret := T })
    (hv : dictFind? v a.VARIABLE_TYPE_INFO = some "str") :
    generic_scan T [Expr.integer n] ANY_TYPE 0 [(x, T)] = Except.ok INT_TYPE ∧
    check_assignment a v (some (Expr.call fname [Expr.integer n])) =
      { analyzer := a, output := [assignment_error_tmpl INT_TYPE "str"],
        error := none } := by
  have hval : genericsHasValue T a.GENERICS_TYPE_INFO = true :=
    genericsHasValue_of_find _ _ _ hg
  have hcon : dictContains T a.GENERICS_TYPE_INFO = true := by
    simp [dictContains, hg]
  have hscan : generic_scan T [Expr.integer n] ANY_TYPE 0 [(x, T)] =
      Except.ok INT_TYPE := by
    simp [generic_scan]
  refine ⟨hscan, ?_⟩
  have hargs : check_args a fname [Expr.integer n] =
      { analyzer := a, output := [], error := none } := by
    simp only [check_args, hf]
    by_cases hT : T = ANY_TYPE
    · simp [check_args_loop, hT]
    · simp [check_args_loop, hT, hval]
  have hret : check_return a (CallCtx.annAssignCtx v fname [Expr.integer n]) =
      { analyzer := a, output := [assignment_error_tmpl INT_TYPE "str"],
        error := none } := by
    simp only [check_return, CallCtx.fname, CallCtx.args, hf]
    simp [hcon, hscan, hv, INT_TYPE]
  simp [check_assignment, check_call, CallCtx.fname, CallCtx.args, hargs, hret]

/-- C1 witness: the generics test case end to end — analysis produces
the expected tables, the whole check emits exactly the one assignment
diagnostic, and the mismatched assignment statement behaves as the
theorem states at this concrete input. -/
theorem generic_call_assignment_mismatch_witness :
    analyze SemanticAnalyzer.init generics_typed_ng = Except.ok aGen ∧
    check aGen generics_typed_ng =
      { analyzer := aGen, output := [assignment_error_tmpl INT_TYPE "str"],
        error := none } ∧
    generic_scan "T" [Expr.integer 1] ANY_TYPE 0 [("x", "T")] =
      Except.ok INT_TYPE ∧
    check_assignment aGen "copy_x" (some (Expr.call "f" [Expr.integer 1])) =
      { analyzer := aGen, output := [assignment_error_tmpl INT_TYPE "str"],
        error := none } := by
  refine ⟨rfl, ?_,
    (generic_call_assignment_mismatch aGen "T" "x" "copy_x" "f" 1 rfl rfl rfl).1,
    (generic_call_assignment_mismatch aGen "T" "x" "copy_x" "f" 1 rfl rfl rfl).2⟩
  simp [check, generics_typed_ng, aGen, check_simple_statement_line,
    check_assignment, check_call, check_args, check_args_loop, check_return,
    check_function_return, find_return_resolve, resolve_node,
    resolve_return_value, resolve_op, dictFind?, dictContains, genericsHasValue,
    generic_scan, CallCtx.fname, CallCtx.args, ANY_TYPE, INT_TYPE, STR_TYPE]

/-- C2 counterexample: on `def g(x: int) -> int: return x` followed by
the bare call `g("a")`, the run does not complete: after printing the
argument diagnostic, the return check raises NotImplementedError,
because the Expr statement node is neither an AnnAssign nor a Return.
The claim that analyze-then-check completes is therefore false. -/
theorem bare_call_typed_return_counterexample :
    analyze SemanticAnalyzer.init prog_g_call = Except.ok aGCall ∧
    (check aGCall prog_g_call).error = some (Err.notImplemented "Expr") := by
  refine ⟨rfl, ?_⟩
  simp [check, prog_g_call, aGCall, check_simple_statement_line,
    check_assignment, check_call, check_args, check_args_loop, check_return,
    check_function_return, find_return_resolve, resolve_node,
    resolve_return_value, resolve_op, dictFind?, dictContains, genericsHasValue,
    generic_scan, CallCtx.fname, CallCtx.args, ANY_TYPE, INT_TYPE, STR_TYPE]

/-- C2 amended: the run emits exactly the one argument diagnostic for
position 1 with actual "str" and declared "int", and then fails fast
with the unsupported-construct error raised by the return check on the
bare expression statement; it does not complete normally. -/
theorem bare_call_typed_return_behavior :
    analyze SemanticAnalyzer.init prog_g_call = Except.ok aGCall ∧
    check aGCall prog_g_call =
      { analyzer := aGCall,
        output := [arg_type_error_tmpl 1 "g" STR_TYPE INT_TYPE],
        error := some (Err.notImplemented "Expr") } := by
  refine ⟨rfl, ?_⟩
  simp [check, prog_g_call, aGCall, check_simple_statement_line,
    check_assignment, check_call, check_args, check_args_loop, check_return,
    check_function_return, find_return_resolve, resolve_node,
    resolve_return_value, resolve_op, dictFind?, dictContains, genericsHasValue,
    generic_scan, CallCtx.fname, CallCtx.args, ANY_TYPE, INT_TYPE, STR_TYPE]

/-- C3: for every binary operation, writing lres and rres for the
resolutions of the two operands (in evaluation order): when either
operand type is "any" the expression resolves to "any" with no new
diagnostic; when the types agree and differ from "any" there is no new
diagnostic and the resolved type is the common type; when they differ
and neither is "any", exactly one operator diagnostic is appended and
the resolved type is the left type. -/
theorem binary_operation_check (a : SemanticAnalyzer) (op : BinOpKind)
    (l r : Expr) :
    ((resolve_node a l).ty = ANY_TYPE ∨
        (resolve_node (resolve_node a l).analyzer r).ty = ANY_TYPE →
      (check_and_resolve_binary_operation a op l r).ty = ANY_TYPE ∧
      (check_and_resolve_binary_operation a op l r).output =
        (resolve_node a l).output ++
          (resolve_node (resolve_node a l).analyzer r).output) ∧
    ((resolve_node a l).ty = (resolve_node (resolve_node a l).analyzer r).ty ∧
        (resolve_node a l).ty ≠ ANY_TYPE →
      (check_and_resolve_binary_operation a op l r).output =
        (resolve_node a l).output ++
          (resolve_node (resolve_node a l).analyzer r).output ∧
      (check_and_resolve_binary_operation a op l r).ty =
        (resolve_node a l).ty) ∧
    ((resolve_node a l).ty ≠ (resolve_node (resolve_node a l).analyzer r).ty ∧
        (resolve_node a l).ty ≠ ANY_TYPE ∧
        (resolve_node (resolve_node a l).analyzer r).ty ≠ ANY_TYPE →
      (check_and_resolve_binary_operation a op l r).output =
        (resolve_node a l).output ++
          (resolve_node (resolve_node a l).analyzer r).output ++
          [operand_error_tmpl (resolve_op op) (resolve_node a l).ty
            (resolve_node (resolve_node a l).analyzer r).ty] ∧
      (check_and_resolve_binary_operation a op l r).ty =
        (resolve_node a l).ty) := by
  refine ⟨?_, ?_, ?_⟩
  · intro h
    simp only [check_and_resolve_binary_operation, resolve_node]
    rw [if_pos (by rcases h with h | h <;> simp [h])]
    exact ⟨rfl, rfl⟩
  · rintro ⟨heq, hne⟩
    simp only [check_and_resolve_binary_operation, resolve_node]
    rw [if_neg (by simp [← heq, hne]), if_neg (by simp [heq])]
    exact ⟨rfl, rfl⟩
  · rintro ⟨hne, hl, hr⟩
    simp only [check_and_resolve_binary_operation, resolve_node]
    rw [if_neg (by simp [hl, hr]), if_pos (by simp [hne])]
    exact ⟨rfl, rfl⟩

/-- C3 witness: `1 + "a"` over the empty done analyzer: the operand
types "int" and "str" differ and neither is "any", so exactly one
operator diagnostic is produced and the expression resolves to the
left type "int". -/
theorem binary_operation_check_witness :
    "int" ≠ "str" ∧ "int" ≠ ANY_TYPE ∧ "str" ≠ ANY_TYPE ∧
    (check_and_resolve_binary_operation aEmptyDone BinOpKind.add
        (Expr.integer 1) (Expr.simpleString "a")).output =
      [operand_error_tmpl "+" "int" "str"] ∧
    (check_and_resolve_binary_operation aEmptyDone BinOpKind.add
        (Expr.integer 1) (Expr.simpleString "a")).ty = "int" := by
  have h := (binary_operation_check aEmptyDone BinOpKind.add (Expr.integer 1)
      (Expr.simpleString "a")).2.2
    ⟨by simp [resolve_node, INT_TYPE, STR_TYPE],
     by simp [resolve_node, INT_TYPE, ANY_TYPE],
     by simp [resolve_node, STR_TYPE, ANY_TYPE]⟩
  refine ⟨by simp, by simp [ANY_TYPE], by simp [ANY_TYPE], ?_, ?_⟩
  · simpa [resolve_node, resolve_op, INT_TYPE, STR_TYPE] using h.1
  · simpa [resolve_node, INT_TYPE] using h.2

/-- C4: for an annotated assignment whose right-hand side is an
integer literal and whose target is recorded with declared type T, a
diagnostic is emitted iff T differs from "int", and its actual field
is always "int"; nothing is raised. -/
theorem annassign_int_literal (a : SemanticAnalyzer) (v T : String) (n : Int)
    (hv : dictFind? v a.VARIABLE_TYPE_INFO = some T) :
    check_assignment a v (some (Expr.integer n)) =
      { analyzer := a,
        output := if T = INT_TYPE then [] else [assignment_error_tmpl INT_TYPE T],
        error := none } := by
  simp only [check_assignment, hv]
  by_cases h : T = INT_TYPE <;> simp [h]

/-- C4 witness: assigning an integer literal to a variable declared
"str" prints the assignment diagnostic with actual "int". -/
theorem annassign_int_literal_witness :
    dictFind? "copy_x" aGen.VARIABLE_TYPE_INFO = some "str" ∧
    check_assignment aGen "copy_x" (some (Expr.integer 1)) =
      { analyzer := aGen, output := [assignment_error_tmpl INT_TYPE "str"],
        error := none } := by
  refine ⟨rfl, ?_⟩
  have h := annassign_int_literal aGen "copy_x" "str" 1 rfl
  simpa [INT_TYPE] using h

/-- C5: an argument whose corresponding declared parameter type is
"any", or occurs among the registered generic values, is skipped
entirely: the loop continues with the remaining arguments as if the
argument were not there, regardless of the argument expression. -/
theorem argument_check_skip (a : SemanticAnalyzer) (fname : String)
    (sigArgs : List (String × String)) (i : Nat) (arg : Expr)
    (rest : List Expr) (pname annotated : String)
    (hidx : sigArgs[i]? = some (pname, annotated))
    (hskip : annotated = ANY_TYPE ∨
      genericsHasValue annotated a.GENERICS_TYPE_INFO = true) :
    check_args_loop a fname sigArgs i (arg :: rest) =
      check_args_loop a fname sigArgs (i + 1) rest := by
  rcases hskip with h | h
  · simp [check_args_loop, hidx, h]
  · by_cases hA : annotated = ANY_TYPE <;> simp [check_args_loop, hidx, hA, h]

/-- C5 witness: a parameter declared "any" makes the check skip even
an argument expression kind that would otherwise raise (a name), and a
parameter declared with the registered generic value "T" is skipped
as well. -/
theorem argument_check_skip_witness :
    ([("x", ANY_TYPE)][0]? = some ("x", ANY_TYPE)) ∧
    check_args_loop aEmptyDone "f" [("x", ANY_TYPE)] 0 [Expr.name "y"] =
      check_args_loop aEmptyDone "f" [("x", ANY_TYPE)] 1 [] ∧
    genericsHasValue "T" aGen.GENERICS_TYPE_INFO = true ∧
    check_args_loop aGen "f" [("x", "T")] 0 [Expr.name "y"] =
      check_args_loop aGen "f" [("x", "T")] 1 [] :=
  ⟨rfl,
   argument_check_skip aEmptyDone "f" [("x", ANY_TYPE)] 0 (Expr.name "y") []
     "x" ANY_TYPE rfl (Or.inl rfl),
   rfl,
   argument_check_skip aGen "f" [("x", "T")] 0 (Expr.name "y") []
     "x" "T" rfl (Or.inr rfl)⟩

/-- C6: constructing a TypeChecker from a not-done analyzer raises the
fatal RuntimeError; a successful analyze always leaves the analyzer in
the done state, from which construction succeeds — so the failure is
unreachable under the intended analyze-then-check sequence. -/
theorem checker_construction_precondition (a : SemanticAnalyzer)
    (tree : List Stmt) (a' : SemanticAnalyzer) :
    (a.done = false →
      TypeChecker.init a =
        Except.error (Err.runtimeError "SemanticAnalyzer is not done yet.")) ∧
    (analyze a tree = Except.ok a' → a'.done = true) ∧
    (analyze a tree = Except.ok a' →
      TypeChecker.init a' = Except.ok { ANALYZER := a' }) := by
  have hdone : analyze a tree = Except.ok a' → a'.done = true := by
    intro h
    unfold analyze at h
    cases he : analyzeList a tree with
    | error e => rw [he] at h; cases h
    | ok a2 => rw [he] at h; injection h with h; rw [← h]
  refine ⟨?_, hdone, ?_⟩
  · intro h; simp [TypeChecker.init, h]
  · intro h; simp [TypeChecker.init, hdone h]

/-- C6 witness: the freshly initialized analyzer is not done and the
construction fails; analyzing the empty tree reaches the done state,
from which construction succeeds. -/
theorem checker_construction_precondition_witness :
    SemanticAnalyzer.init.done = false ∧
    TypeChecker.init SemanticAnalyzer.init =
      Except.error (Err.runtimeError "SemanticAnalyzer is not done yet.") ∧
    analyze SemanticAnalyzer.init [] = Except.ok aEmptyDone ∧
    aEmptyDone.done = true ∧
    TypeChecker.init aEmptyDone = Except.ok { ANALYZER := aEmptyDone } :=
  ⟨rfl,
   (checker_construction_precondition SemanticAnalyzer.init [] aEmptyDone).1 rfl,
   rfl,
   (checker_construction_precondition SemanticAnalyzer.init [] aEmptyDone).2.1 rfl,
   (checker_construction_precondition SemanticAnalyzer.init [] aEmptyDone).2.2 rfl⟩

/-- C7 counterexample: a top-level Return line is none of the three
supported statement kinds, yet the check pass silently skips it and
completes without any unsupported-construct failure, refuting the
claim that every other kind fails fast. -/
theorem toplevel_dispatch_counterexample :
    check aEmptyDone
        [Stmt.simpleStatementLine [SmallStmt.ret (some (Expr.name "x"))]] =
      { analyzer := aEmptyDone, output := [], error := none } := by
  simp [check, check_simple_statement_line]

/-- C7 amended: only top-level node classes other than
SimpleStatementLine and FunctionDef fail fast with the
unsupported-construct error; a simple statement line whose first small
statement is neither an annotated assignment nor a call expression
statement is silently skipped with no output and no failure. -/
theorem toplevel_dispatch_behavior (a : SemanticAnalyzer) (k : String)
    (rest : List Stmt) (s : SmallStmt) (b : List SmallStmt)
    (hs : handled_small_stmt s = false) :
    check a (Stmt.otherStmt k :: rest) =
      { analyzer := a, output := [], error := some (Err.notImplemented k) } ∧
    check_simple_statement_line a (s :: b) =
      { analyzer := a, output := [], error := none } := by
  constructor
  · simp [check]
  · cases s with
    | annAssign t an v => simp [handled_small_stmt] at hs
    | expr e =>
        cases e <;> simp [handled_small_stmt] at hs <;>
          simp [check_simple_statement_line]
    | assign ts v => simp [check_simple_statement_line]
    | ret v => simp [check_simple_statement_line]
    | importFrom => simp [check_simple_statement_line]
    | otherSmall k2 => simp [check_simple_statement_line]

/-- C7 witness: an If statement at top level fails fast, while a
top-level import line is silently skipped. -/
theorem toplevel_dispatch_behavior_witness :
    handled_small_stmt SmallStmt.importFrom = false ∧
    check aEmptyDone [Stmt.otherStmt "If"] =
      { analyzer := aEmptyDone, output := [],
        error := some (Err.notImplemented "If") } ∧
    check_simple_statement_line aEmptyDone [SmallStmt.importFrom] =
      { analyzer := aEmptyDone, output := [], error := none } :=
  ⟨rfl,
   (toplevel_dispatch_behavior aEmptyDone "If" [] SmallStmt.importFrom [] rfl).1,
   (toplevel_dispatch_behavior aEmptyDone "If" [] SmallStmt.importFrom [] rfl).2⟩

/-- C8 counterexample: the plain assignment `x = 1`, whose right-hand
side is an integer literal and not a call, is not silently ignored:
the analyzer reads `.func` of the value and raises AttributeError,
refuting the claim that every non-TypeVar plain assignment is skipped
without failure. -/
theorem plain_assign_counterexample :
    analyze_simple_statement_line SemanticAnalyzer.init
        [SmallStmt.assign ["x"] (Expr.integer 1)] =
      Except.error (Err.attributeError "func") := rfl

/-- C8 amended: a plain assignment whose right-hand side is a call
named TypeVar with a string-literal first argument registers that
string under the target name in GENERICS_TYPE_INFO; a plain assignment
whose right-hand side is a call with any other name is silently
ignored, leaving the analyzer unchanged; a plain assignment whose
right-hand side is not a call raises AttributeError. -/
theorem plain_assign_behavior (a : SemanticAnalyzer) (t f s : String)
    (ts : List String) (cargs : List Expr) (rest : List SmallStmt) (v : Expr) :
    (analyze_simple_statement_line a
        (SmallStmt.assign (t :: ts)
          (Expr.call "TypeVar" (Expr.simpleString s :: cargs)) :: rest) =
      Except.ok { a with
        GENERICS_TYPE_INFO := dictInsert t (GVal.vstr s) a.GENERICS_TYPE_INFO }) ∧
    (f ≠ "TypeVar" →
      analyze_simple_statement_line a
          (SmallStmt.assign ts (Expr.call f cargs) :: rest) = Except.ok a) ∧
    (is_call_value v = false →
      analyze_simple_statement_line a (SmallStmt.assign ts v :: rest) =
        Except.error (Err.attributeError "func")) := by
  refine ⟨?_, ?_, ?_⟩
  · simp [analyze_simple_statement_line, evalTypeVarArg]
  · intro h; simp [analyze_simple_statement_line, h]
  · intro h
    cases v <;> simp [is_call_value] at h <;>
      simp [analyze_simple_statement_line]

/-- C8 witness: `T = TypeVar("T")` registers T; `y = deepcopy(x)` is
silently ignored; `x = 1` raises AttributeError. -/
theorem plain_assign_behavior_witness :
    (analyze_simple_statement_line SemanticAnalyzer.init
        [SmallStmt.assign ["T"]
          (Expr.call "TypeVar" [Expr.simpleString "T"])] =
      Except.ok { SemanticAnalyzer.init with
        GENERICS_TYPE_INFO := dictInsert "T" (GVal.vstr "T") [] }) ∧
    (analyze_simple_statement_line SemanticAnalyzer.init
        [SmallStmt.assign ["y"] (Expr.call "deepcopy" [Expr.name "x"])] =
      Except.ok SemanticAnalyzer.init) ∧
    (is_call_value (Expr.integer 1) = false) ∧
    (analyze_simple_statement_line SemanticAnalyzer.init
        [SmallStmt.assign ["x"] (Expr.integer 1)] =
      Except.error (Err.attributeError "func")) :=
  ⟨(plain_assign_behavior SemanticAnalyzer.init "T" "deepcopy" "T" [] [] []
      (Expr.integer 1)).1,
   (plain_assign_behavior SemanticAnalyzer.init "T" "deepcopy" "T" ["y"]
      [Expr.name "x"] [] (Expr.integer 1)).2.1 (by simp),
   rfl,
   (plain_assign_behavior SemanticAnalyzer.init "T" "deepcopy" "T" ["x"] []
      [] (Expr.integer 1)).2.2 rfl⟩

/-- C9: for a bare expression-statement call to a function whose
declared return type is a registered generic key, once the generic
scan succeeds the return check neither skips nor prints: it reads the
missing `target` attribute of the Expr node and raises AttributeError,
which is a different failure from the NotImplementedError used for
unsupported constructs. -/
theorem generic_return_bare_call (a : SemanticAnalyzer) (fname : String)
    (cargs : List Expr) (sig : FuncSig) (t : String)
    (hf : dictFind? fname a.FUNCTION_TYPE_INFO = some sig)
    (hg : dictContains sig.ret a.GENERICS_TYPE_INFO = true)
    (hscan : generic_scan sig.ret cargs ANY_TYPE 0 sig.args = Except.ok t) :
    check_return a (CallCtx.exprCtx fname cargs) =
      { analyzer := a, output := [],
        error := some (Err.attributeError "target") } ∧
    (∀ k, Err.attributeError "target" ≠ Err.notImplemented k) := by
  constructor
  · simp only [check_return, CallCtx.fname, CallCtx.args, hf]
    simp [hg, hscan]
  · intro k h; cases h

/-- C9 witness: the bare call `f(1)` against the generics tables: the
return check raises AttributeError after an argument scan resolving
"int". -/
theorem generic_return_bare_call_witness :
    dictFind? "f" aGen.FUNCTION_TYPE_INFO =
      some { args := [("x", "T")], ret := "T" } ∧
    check_return aGen (CallCtx.exprCtx "f" [Expr.integer 1]) =
      { analyzer := aGen, output := [],
        error := some (Err.attributeError "target") } :=
  ⟨rfl,
   (generic_return_bare_call aGen "f" [Expr.integer 1]
      { args := [("x", "T")], ret := "T" } "int" rfl rfl rfl).1⟩

/-- C10: the check pass never mutates the analyzer it was handed, so
running check a second time over the same tree — with the analyzer
state left by the first run — returns the identical result, output
included. -/
theorem check_idempotent (a : SemanticAnalyzer) (tree : List Stmt) :
    check (check a tree).analyzer tree = check a tree := by
  rw [check_analyzer]

end MiniTC
